import Mathlib

/-!
Verification of the Risk Signal Engine (fraud-detection demo application).

This file shallowly embeds the detectors and the score fusion of the
repository in Lean 4 and settles the frozen claims about them.  All
arithmetic that Python performs on numbers is embedded over `ℤ`/`ℚ`
(exact rationals stand in for Python floats; `round` is embedded as
Python's round-half-to-even, `int(...)` on non-negative values as the
floor).  Stateful reads and writes against the event store are made
explicit: each detector takes the relevant store contents as an argument
and returns the value it would write back.
-/

namespace FraudEngine

/-- Python `round` on an exact rational: round half to even (banker's
rounding), as CPython's builtin `round` behaves. -/
def pyRound (q : ℚ) : ℤ :=
  let f : ℤ := ⌊q⌋
  let r : ℚ := q - f
  if r < 1/2 then f
  else if 1/2 < r then f + 1
  else if f % 2 = 0 then f else f + 1

/-- Python `round(q, 2)`: round half to even at two decimal places. -/
def pyRound2 (q : ℚ) : ℚ := (pyRound (q * 100) : ℚ) / 100

/-! ### Signal fusion (`app/api/routes.py`, `analyze_user`, and
`app/main_app.py`, `get_risk_level` / `get_recommendation`) -/

/-- The eight per-signal risk scores handed to fusion.  A field is `none`
when that signal's result dict is missing the `risk_score` key; the code
reads it with `results[key].get('risk_score', 0)`. -/
structure PredictorScores where
  user_agent : Option ℤ
  geo_velocity : Option ℤ
  access_time : Option ℤ
  password_attack : Option ℤ
  device : Option ℤ
  account_velocity : Option ℤ
  session : Option ℤ
  ip_reputation : Option ℤ
  deriving Repr, DecidableEq

/-- The `weights` dict of `analyze_user`, in insertion order. -/
def fusionWeights : List (String × ℚ) :=
  [("user_agent", 10/100), ("geo_velocity", 20/100), ("access_time", 10/100),
   ("password_attack", 15/100), ("device", 15/100), ("account_velocity", 10/100),
   ("session", 10/100), ("ip_reputation", 10/100)]

/-- Key lookup `results[key]` over the eight signal results. -/
def scoreOf (s : PredictorScores) (key : String) : Option ℤ :=
  if key = "user_agent" then s.user_agent
  else if key = "geo_velocity" then s.geo_velocity
  else if key = "access_time" then s.access_time
  else if key = "password_attack" then s.password_attack
  else if key = "device" then s.device
  else if key = "account_velocity" then s.account_velocity
  else if key = "session" then s.session
  else if key = "ip_reputation" then s.ip_reputation
  else none

/-- The generator-sum `sum(results[key].get('risk_score', 0) * weights[key]
for key in weights)` of `analyze_user`. -/
def weightedSum (s : PredictorScores) : ℚ :=
  (fusionWeights.map (fun kw => (((scoreOf s kw.1).getD 0 : ℤ) : ℚ) * kw.2)).sum

/-- `get_risk_level` from `app/main_app.py`. -/
def get_risk_level (score : ℤ) : String :=
  if score < 25 then "low"
  else if score < 50 then "medium"
  else if score < 75 then "high"
  else "critical"

/-- `get_recommendation` from `app/main_app.py`. -/
def get_recommendation (score : ℤ) : String :=
  if score < 25 then "allow"
  else if score < 50 then "monitor"
  else if score < 75 then "challenge"
  else "block"

/-- The fusion portion of `analyze_user`: overall risk, level and
recommendation as computed from the eight signal results. -/
structure FusionVerdict where
  overall_risk : ℤ
  risk_level : String
  recommendation : String
  deriving Repr, DecidableEq

/-- Fusion step of the `/analyze-user/<user_id>` entry point
(`app/api/routes.py` lines 233-253). -/
def analyzeUserFusion (s : PredictorScores) : FusionVerdict :=
  let overall := pyRound (weightedSum s)
  { overall_risk := overall
    risk_level := get_risk_level overall
    recommendation := get_recommendation overall }

/-- A present signal score lies in the 0-100 band (a missing score is
unconstrained; fusion replaces it by 0). -/
def scoreInRange (o : Option ℤ) : Prop :=
  match o with
  | none => True
  | some v => 0 ≤ v ∧ v ≤ 100

instance (o : Option ℤ) : Decidable (scoreInRange o) := by
  unfold scoreInRange; cases o <;> infer_instance

/-- All eight signal results carry risk scores in 0-100 when present. -/
def ScoresInRange (s : PredictorScores) : Prop :=
  scoreInRange s.user_agent ∧ scoreInRange s.geo_velocity ∧ scoreInRange s.access_time ∧
  scoreInRange s.password_attack ∧ scoreInRange s.device ∧ scoreInRange s.account_velocity ∧
  scoreInRange s.session ∧ scoreInRange s.ip_reputation

instance (s : PredictorScores) : Decidable (ScoresInRange s) := by
  unfold ScoresInRange; infer_instance

/-- C1.  For every set of eight signal results with risk scores in 0-100,
the analysis entry point computes
`overall_risk = round(0.20*geo_velocity + 0.15*password_attack + 0.15*device
+ 0.10*user_agent + 0.10*access_time + 0.10*account_velocity + 0.10*session
+ 0.10*ip_reputation)` (a signal missing its `risk_score` counting as 0),
and maps `overall_risk` to `risk_level` and `recommendation` by the fixed
thresholds `<25` low/allow, `<50` medium/monitor, `<75` high/challenge,
otherwise critical/block.  Being a pure function of the eight scores, the
result is deterministic. -/
theorem C1_fusion_formula_and_thresholds (s : PredictorScores) (h : ScoresInRange s) :
    (analyzeUserFusion s).overall_risk =
      pyRound (20/100 * ((s.geo_velocity.getD 0 : ℤ) : ℚ)
        + 15/100 * ((s.password_attack.getD 0 : ℤ) : ℚ)
        + 15/100 * ((s.device.getD 0 : ℤ) : ℚ)
        + 10/100 * ((s.user_agent.getD 0 : ℤ) : ℚ)
        + 10/100 * ((s.access_time.getD 0 : ℤ) : ℚ)
        + 10/100 * ((s.account_velocity.getD 0 : ℤ) : ℚ)
        + 10/100 * ((s.session.getD 0 : ℤ) : ℚ)
        + 10/100 * ((s.ip_reputation.getD 0 : ℤ) : ℚ)) ∧
    (analyzeUserFusion s).risk_level =
      (if (analyzeUserFusion s).overall_risk < 25 then "low"
       else if (analyzeUserFusion s).overall_risk < 50 then "medium"
       else if (analyzeUserFusion s).overall_risk < 75 then "high" else "critical") ∧
    (analyzeUserFusion s).recommendation =
      (if (analyzeUserFusion s).overall_risk < 25 then "allow"
       else if (analyzeUserFusion s).overall_risk < 50 then "monitor"
       else if (analyzeUserFusion s).overall_risk < 75 then "challenge" else "block") := by
  refine ⟨?_, ?_, ?_⟩
  · show pyRound (weightedSum s) = _
    congr 1
    simp only [weightedSum, fusionWeights, scoreOf, List.map_cons, List.map_nil,
      List.sum_cons, List.sum_nil, String.reduceEq, if_true, if_false, reduceIte]
    ring
  · simp only [analyzeUserFusion, get_risk_level]
  · simp only [analyzeUserFusion, get_recommendation]

/-- Witness for C1 at the concrete input where every signal scores 50. -/
theorem C1_fusion_formula_and_thresholds_witness :
    (analyzeUserFusion ⟨some 50, some 50, some 50, some 50, some 50, some 50, some 50, some 50⟩).overall_risk =
      pyRound (20/100 * ((50 : ℤ) : ℚ) + 15/100 * ((50 : ℤ) : ℚ) + 15/100 * ((50 : ℤ) : ℚ)
        + 10/100 * ((50 : ℤ) : ℚ) + 10/100 * ((50 : ℤ) : ℚ) + 10/100 * ((50 : ℤ) : ℚ)
        + 10/100 * ((50 : ℤ) : ℚ) + 10/100 * ((50 : ℤ) : ℚ)) :=
  (C1_fusion_formula_and_thresholds
    ⟨some 50, some 50, some 50, some 50, some 50, some 50, some 50, some 50⟩ (by decide)).1

/-! ### Geo-velocity detector (`app/predictors/geo_velocity.py`)

The geolocation provider and the haversine computation (`math` trig on
floats) are injected as a distance function `distanceFn`; the detector's
policy over gaps, distances and speeds is embedded verbatim.  The "last
login" entry of the store is threaded explicitly: `geoDetect` returns the
signal result together with the new last-login entry. -/

structure GeoLocation where
  latitude : ℚ
  longitude : ℚ
  deriving Repr, DecidableEq

/-- A stored login record.  The `location` field is optional because a
malformed stored record without it makes `previous_login['location']`
raise a `KeyError` inside `detect`. -/
structure StoredLogin where
  ip : String
  location : Option GeoLocation
  timestamp : ℤ
  deriving Repr, DecidableEq

structure GeoResult where
  risk_score : ℤ
  status : String
  deriving Repr, DecidableEq

/-- `GeoVelocityDetector._assess_travel_risk`. -/
def assessTravelRisk (speed distance : ℚ) : GeoResult :=
  let airplane_speed : ℚ := if distance < 50 then 700 else 900
  let train_speed : ℚ := if distance < 50 then 200 else 300
  if airplane_speed < speed then ⟨100, "impossible_travel"⟩
  else if train_speed < speed then ⟨80, "highly_suspicious_travel"⟩
  else if 120 < speed then ⟨60, "suspicious_travel"⟩
  else if 7 < speed then ⟨0, "normal_travel"⟩
  else ⟨0, "slow_travel"⟩

/-- Body of `GeoVelocityDetector.detect` (the code inside the `try`).
The second component is the last-login record after the call (the
`_store_login` write, or the unchanged previous record when no write
happens).  The branch dividing by `time_diff_hours = 0` is unreachable
because the duplicate-request guard has already returned. -/
def geoDetectBody (distanceFn : GeoLocation → GeoLocation → ℚ)
    (lastLogin : Option StoredLogin) (currentLocation : Option GeoLocation)
    (ip : String) (now : ℤ) : Except String (GeoResult × Option StoredLogin) :=
  match currentLocation with
  | none => .ok (⟨50, "unknown_location"⟩, lastLogin)
  | some cur =>
    match lastLogin with
    | none => .ok (⟨0, "first_login"⟩, some ⟨ip, some cur, now⟩)
    | some prev =>
      let time_diff_hours : ℚ := ((now - prev.timestamp : ℤ) : ℚ) / 3600
      if time_diff_hours < 167/10000 then .ok (⟨0, "duplicate_request"⟩, lastLogin)
      else if 168 < time_diff_hours then .ok (⟨0, "extended_time_gap"⟩, some ⟨ip, some cur, now⟩)
      else
        match prev.location with
        | none => .error "KeyError: latitude"
        | some prevLoc =>
          let distance_km := distanceFn prevLoc cur
          if distance_km < 10 then .ok (⟨0, "same_area"⟩, some ⟨ip, some cur, now⟩)
          else
            let travel_speed := distance_km / time_diff_hours
            .ok (assessTravelRisk travel_speed distance_km, some ⟨ip, some cur, now⟩)

/-- `GeoVelocityDetector.detect`: the body wrapped in the `try/except`
boundary, which turns any raised exception into risk 50 / status `error`
without writing to the store. -/
def geoDetect (distanceFn : GeoLocation → GeoLocation → ℚ)
    (lastLogin : Option StoredLogin) (currentLocation : Option GeoLocation)
    (ip : String) (now : ℤ) : GeoResult × Option StoredLogin :=
  match geoDetectBody distanceFn lastLogin currentLocation ip now with
  | .ok r => r
  | .error _ => (⟨50, "error"⟩, lastLogin)

/-- The time-gap guards pass for 60 s < gap ≤ 7 days. -/
theorem geo_gap_guards {gap : ℤ} (h60 : 60 < gap) (h7d : gap ≤ 604800) :
    ¬ ((gap : ℚ) / 3600 < 167/10000) ∧ ¬ ((168 : ℚ) < (gap : ℚ) / 3600) := by
  have h61 : (61 : ℚ) ≤ (gap : ℚ) := by exact_mod_cast h60
  have hub : (gap : ℚ) ≤ 604800 := by exact_mod_cast h7d
  constructor
  · intro hc; nlinarith
  · intro hc; nlinarith

/-- C4 (amended).  With a stored previous login, a resolvable current
location, and a time gap strictly greater than 60 s and at most 7 days:
if the distance is at least 10 km and the implied speed exceeds 900 km/h
(700 km/h when the distance is below 50 km) then `detect` returns risk
100 with status `impossible_travel`; and if the distance is 0 km then
`detect` returns risk 0 with status `same_area`.  (A gap below the
duplicate-request cutoff returns `duplicate_request` instead, refuting
the claim's "any positive time gap" for the distance-0 case.) -/
theorem C4_impossible_travel_and_same_area
    (distanceFn : GeoLocation → GeoLocation → ℚ) (prev : StoredLogin)
    (prevLoc cur : GeoLocation) (ip : String) (now : ℤ)
    (hloc : prev.location = some prevLoc)
    (h60 : 60 < now - prev.timestamp) (h7d : now - prev.timestamp ≤ 604800) :
    (10 ≤ distanceFn prevLoc cur →
      (if distanceFn prevLoc cur < 50 then (700 : ℚ) else 900) <
        distanceFn prevLoc cur / (((now - prev.timestamp : ℤ) : ℚ) / 3600) →
      (geoDetect distanceFn (some prev) (some cur) ip now).1 = ⟨100, "impossible_travel"⟩) ∧
    (distanceFn prevLoc cur = 0 →
      (geoDetect distanceFn (some prev) (some cur) ip now).1 = ⟨0, "same_area"⟩) := by
  obtain ⟨hg1, hg2⟩ := geo_gap_guards h60 h7d
  constructor
  · intro hdist hspeed
    have hd10 : ¬ (distanceFn prevLoc cur < 10) := by linarith
    simp only [geoDetect, geoDetectBody, hloc, if_neg hg1, if_neg hg2, if_neg hd10,
      assessTravelRisk, if_pos hspeed]
  · intro hzero
    have hd10 : distanceFn prevLoc cur < 10 := by rw [hzero]; norm_num
    simp only [geoDetect, geoDetectBody, hloc, if_neg hg1, if_neg hg2, if_pos hd10]

/-- Counterexample to C4 as stated: at distance 0 km with a positive time
gap of 30 s, `detect` returns status `duplicate_request`, not
`same_area`. -/
theorem C4_counterexample :
    (geoDetect (fun _ _ => 0) (some ⟨"1.2.3.4", some ⟨0, 0⟩, 1000⟩)
        (some ⟨10, 10⟩) "5.6.7.8" 1030).1 = ⟨0, "duplicate_request"⟩ ∧
    (geoDetect (fun _ _ => 0) (some ⟨"1.2.3.4", some ⟨0, 0⟩, 1000⟩)
        (some ⟨10, 10⟩) "5.6.7.8" 1030).1.status ≠ "same_area" := by
  have hlt : ((1030 - 1000 : ℤ) : ℚ) / 3600 < 167/10000 := by norm_num
  refine ⟨?_, ?_⟩ <;> simp only [geoDetect, geoDetectBody, if_pos hlt] <;> simp

/-- Witness for C4 at a concrete impossible-travel input (2000 km in one
hour) and a concrete same-area input. -/
theorem C4_impossible_travel_and_same_area_witness :
    (geoDetect (fun _ _ => 2000) (some ⟨"1.2.3.4", some ⟨0, 0⟩, 1000⟩)
        (some ⟨10, 10⟩) "5.6.7.8" 4600).1 = ⟨100, "impossible_travel"⟩ ∧
    (geoDetect (fun _ _ => 0) (some ⟨"1.2.3.4", some ⟨0, 0⟩, 1000⟩)
        (some ⟨10, 10⟩) "5.6.7.8" 4600).1 = ⟨0, "same_area"⟩ := by
  constructor
  · exact (C4_impossible_travel_and_same_area (fun _ _ => 2000)
      ⟨"1.2.3.4", some ⟨0, 0⟩, 1000⟩ ⟨0, 0⟩ ⟨10, 10⟩ "5.6.7.8" 4600 rfl
      (by decide) (by decide)).1 (by norm_num)
      (by rw [if_neg (by norm_num : ¬ (2000 : ℚ) < 50)]; norm_num)
  · exact (C4_impossible_travel_and_same_area (fun _ _ => 0)
      ⟨"1.2.3.4", some ⟨0, 0⟩, 1000⟩ ⟨0, 0⟩ ⟨10, 10⟩ "5.6.7.8" 4600 rfl
      (by decide) (by decide)).2 rfl

/-- C8.  For every login event whose time gap from the user's previous
stored login is less than 60 seconds, `detect` returns risk 0 with status
`duplicate_request` and leaves the stored last-login record unchanged (no
store write on this path). -/
theorem C8_duplicate_request_frame
    (distanceFn : GeoLocation → GeoLocation → ℚ) (prev : StoredLogin)
    (cur : GeoLocation) (ip : String) (now : ℤ)
    (hgap : now - prev.timestamp < 60) :
    geoDetect distanceFn (some prev) (some cur) ip now =
      (⟨0, "duplicate_request"⟩, some prev) := by
  have h59 : ((now - prev.timestamp : ℤ) : ℚ) ≤ 59 := by exact_mod_cast (by omega : now - prev.timestamp ≤ 59)
  have hlt : ((now - prev.timestamp : ℤ) : ℚ) / 3600 < 167/10000 := by nlinarith
  simp only [geoDetect, geoDetectBody, if_pos hlt]

/-- Witness for C8 at a concrete 30-second gap. -/
theorem C8_duplicate_request_frame_witness :
    geoDetect (fun _ _ => 2000) (some ⟨"1.2.3.4", some ⟨0, 0⟩, 1000⟩)
        (some ⟨10, 10⟩) "5.6.7.8" 1030 =
      (⟨0, "duplicate_request"⟩, some ⟨"1.2.3.4", some ⟨0, 0⟩, 1000⟩) :=
  C8_duplicate_request_frame (fun _ _ => 2000) ⟨"1.2.3.4", some ⟨0, 0⟩, 1000⟩
    ⟨10, 10⟩ "5.6.7.8" 1030 (by decide)

/-! ### Password attack detector (`app/predictors/password_attack.py`)

The failed-login store is a list of records; `get_recent_failed_logins`
(from `app/database.py`, MongoDB branch) filters it by window and by the
optional username/ip filters.  The result dict of `detect` never carries
a `status` key, which we model as a `status : Option String` field that
is `none` on every path. -/

structure FailedLogin where
  username : String
  ip_address : String
  timestamp : ℤ
  deriving Repr, DecidableEq

/-- `Database.get_recent_failed_logins` (records strictly newer than
`now - minutes*60`, matching the optional username and ip filters). -/
def getRecentFailedLogins (store : List FailedLogin) (uname ipf : Option String)
    (minutes now : ℤ) : List FailedLogin :=
  store.filter (fun f =>
    decide (now - minutes * 60 < f.timestamp) &&
    (match uname with | some u => f.username == u | none => true) &&
    (match ipf with | some i => f.ip_address == i | none => true))

structure PAResult where
  risk_score : ℤ
  attack_detected : Bool
  attack_type : Option String
  status : Option String
  deriving Repr, DecidableEq

/-- `PasswordAttackDetector._detect_brute_force`: at least 5 failures for
this user from this exact ip within 10 minutes. -/
def bruteForceDetected (user_failures : List FailedLogin) (ip : String) (now : ℤ) : Bool :=
  (user_failures.filter (fun f =>
    f.ip_address == ip && decide (now - f.timestamp ≤ 600))).length ≥ 5

/-- `PasswordAttackDetector._detect_credential_stuffing`: at least 10
distinct usernames failing from this ip within 30 minutes. -/
def credentialStuffingDetected (all_failures : List FailedLogin) (ip : String) (now : ℤ) : Bool :=
  (((all_failures.filter (fun f =>
    f.ip_address == ip && decide (now - f.timestamp ≤ 1800))).map (·.username)).dedup).length ≥ 10

/-- `PasswordAttackDetector._detect_password_spraying`: at least 10
distinct usernames within 60 minutes while at most `ip_count * 3 = 3`
distinct source ips are involved. -/
def passwordSprayingDetected (all_failures : List FailedLogin) (now : ℤ) : Bool :=
  (((all_failures.filter (fun f => decide (now - f.timestamp ≤ 3600))).map
      (·.username)).dedup.length ≥ 10) &&
    (((all_failures.filter (fun f => decide (now - f.timestamp ≤ 3600))).map
      (·.ip_address)).dedup.length ≤ 3)

/-- Body of `PasswordAttackDetector.detect`: run the three classifiers
and report the most severe detected attack (stuffing 90 > brute force 85
> spraying 80), or risk 0 when none is detected. -/
def pwDetectBody (store : List FailedLogin) (user_id ip_address : String) (now : ℤ) : PAResult :=
  let user_failures := getRecentFailedLogins store (some user_id) none 60 now
  let all_failures := getRecentFailedLogins store none none 60 now
  let bf := bruteForceDetected user_failures ip_address now
  let cs := credentialStuffingDetected all_failures ip_address now
  let ps := passwordSprayingDetected all_failures now
  if !bf && !cs && !ps then ⟨0, false, none, none⟩
  else if cs then ⟨90, true, some "credential_stuffing", none⟩
  else if bf then ⟨85, true, some "bruteforce", none⟩
  else ⟨80, true, some "password_spraying", none⟩

/-- The `try/except` boundary of `PasswordAttackDetector.detect`: an
exception becomes risk 50 with `attack_type` `detection_error` (and no
`status` key). -/
def pwCatch (body : Except String PAResult) : PAResult :=
  match body with
  | .ok r => r
  | .error _ => ⟨50, false, some "detection_error", none⟩

/-- `PasswordAttackDetector.detect` (the embedded body never raises). -/
def pwDetect (store : List FailedLogin) (user_id ip_address : String) (now : ℤ) : PAResult :=
  pwCatch (.ok (pwDetectBody store user_id ip_address now))

/-- Filters that accept every element leave a list unchanged. -/
theorem filter_eq_self_of {α : Type} (l : List α) (p : α → Bool)
    (h : ∀ a ∈ l, p a = true) : l.filter p = l :=
  List.filter_eq_self.mpr h

/-- A map that is constant on its input produces a replicate. -/
theorem map_const_of {α : Type} (l : List α) (f : α → String) (u : String)
    (h : ∀ a ∈ l, f a = u) : l.map f = List.replicate l.length u := by
  induction l with
  | nil => simp
  | cons a t ih =>
    rw [List.map_cons, List.length_cons, List.replicate_succ,
      h a (by simp), ih (fun b hb => h b (by simp [hb]))]

/-- Deduplicating a non-empty replicate yields the singleton. -/
theorem dedup_replicate_succ (n : ℕ) (a : String) :
    (List.replicate (n + 1) a).dedup = [a] := by
  induction n with
  | zero => simp
  | succ k ih =>
    rw [List.replicate_succ, List.dedup_cons_of_mem (by simp [List.mem_replicate]), ih]

/-- C5.  If the failed-login store holds exactly the attempts of one
(user, ip) pair, all within the last 9 minutes: with 5 such attempts
`detect` reports a brute-force attack with risk 85; with 4 attempts and
no other pattern present it reports no attack and risk 0. -/
theorem C5_brute_force_threshold (store : List FailedLogin) (u ip : String) (now : ℤ)
    (h : ∀ f ∈ store, f.username = u ∧ f.ip_address = ip ∧
      now - 540 ≤ f.timestamp ∧ f.timestamp ≤ now) :
    (store.length = 5 → pwDetect store u ip now = ⟨85, true, some "bruteforce", none⟩) ∧
    (store.length = 4 → pwDetect store u ip now = ⟨0, false, none, none⟩) := by
  have huf : getRecentFailedLogins store (some u) none 60 now = store := by
    apply filter_eq_self_of; intro f hf
    obtain ⟨h1, _, h3, _⟩ := h f hf
    simp only [Bool.and_eq_true, decide_eq_true_eq, beq_iff_eq]
    exact ⟨⟨by omega, h1⟩, trivial⟩
  have haf : getRecentFailedLogins store none none 60 now = store := by
    apply filter_eq_self_of; intro f hf
    obtain ⟨_, _, h3, _⟩ := h f hf
    simp only [Bool.and_eq_true, decide_eq_true_eq]
    exact ⟨⟨by omega, trivial⟩, trivial⟩
  have hbl : store.filter (fun f => f.ip_address == ip && decide (now - f.timestamp ≤ 600)) = store := by
    apply filter_eq_self_of; intro f hf
    obtain ⟨_, h2, h3, _⟩ := h f hf
    simp only [Bool.and_eq_true, decide_eq_true_eq, beq_iff_eq]
    exact ⟨h2, by omega⟩
  have hbf : bruteForceDetected store ip now = decide (store.length ≥ 5) := by
    unfold bruteForceDetected; rw [hbl]
  have husers : ∀ (l : List FailedLogin), (∀ f ∈ l, f ∈ store) → l ≠ [] →
      ((l.map (·.username)).dedup).length = 1 := by
    intro l hl hne
    have : l.map (·.username) = List.replicate l.length u :=
      map_const_of l _ u (fun f hf => (h f (hl f hf)).1)
    rw [this]
    cases l with
    | nil => exact absurd rfl hne
    | cons a t => rw [List.length_cons, dedup_replicate_succ]; rfl
  have hcs : credentialStuffingDetected store ip now = false := by
    unfold credentialStuffingDetected
    cases hstore : store with
    | nil => simp
    | cons a t =>
      rw [← hstore]
      have hfl : ∀ f ∈ store.filter (fun f =>
          f.ip_address == ip && decide (now - f.timestamp ≤ 1800)), f ∈ store :=
        fun f hf => List.mem_of_mem_filter hf
      have hsub : store.filter (fun f =>
          f.ip_address == ip && decide (now - f.timestamp ≤ 1800)) = store := by
        apply filter_eq_self_of; intro f hf
        obtain ⟨_, h2, h3, _⟩ := h f hf
        simp only [Bool.and_eq_true, decide_eq_true_eq, beq_iff_eq]
        exact ⟨h2, by omega⟩
      rw [hsub, husers store (fun f hf => hf) (by rw [hstore]; exact List.cons_ne_nil a t)]
      rfl
  have hps : passwordSprayingDetected store now = false := by
    unfold passwordSprayingDetected
    cases hstore : store with
    | nil => simp
    | cons a t =>
      rw [← hstore]
      have hsub : store.filter (fun f => decide (now - f.timestamp ≤ 3600)) = store := by
        apply filter_eq_self_of; intro f hf
        obtain ⟨_, _, h3, _⟩ := h f hf
        simp only [decide_eq_true_eq]; omega
      rw [hsub, husers store (fun f hf => hf) (by rw [hstore]; exact List.cons_ne_nil a t)]
      simp
  constructor
  · intro h5
    have hbt : bruteForceDetected store ip now = true := by rw [hbf, h5]; rfl
    simp only [pwDetect, pwCatch, pwDetectBody, huf, haf, hbt, hcs, hps]
    rfl
  · intro h4
    have hbt : bruteForceDetected store ip now = false := by rw [hbf, h4]; rfl
    simp only [pwDetect, pwCatch, pwDetectBody, huf, haf, hbt, hcs, hps]
    rfl

/-- Witness for C5: five concrete failures from one pair within 9
minutes trigger brute force at risk 85; four do not. -/
theorem C5_brute_force_threshold_witness :
    pwDetect [⟨"alice", "9.9.9.9", 99500⟩, ⟨"alice", "9.9.9.9", 99510⟩,
        ⟨"alice", "9.9.9.9", 99520⟩, ⟨"alice", "9.9.9.9", 99530⟩,
        ⟨"alice", "9.9.9.9", 99540⟩] "alice" "9.9.9.9" 100000 =
      ⟨85, true, some "bruteforce", none⟩ ∧
    pwDetect [⟨"alice", "9.9.9.9", 99500⟩, ⟨"alice", "9.9.9.9", 99510⟩,
        ⟨"alice", "9.9.9.9", 99520⟩, ⟨"alice", "9.9.9.9", 99530⟩] "alice" "9.9.9.9" 100000 =
      ⟨0, false, none, none⟩ :=
  ⟨(C5_brute_force_threshold _ "alice" "9.9.9.9" 100000 (by decide)).1 rfl,
   (C5_brute_force_threshold _ "alice" "9.9.9.9" 100000 (by decide)).2 rfl⟩

/-! ### Device fingerprinter (`app/predictors/device_fingerprint.py`)

The fingerprint dict is embedded as a structure whose `Option` fields
model present/absent keys.  The device store is an association list from
device id to device record; `analyze` returns the result together with
the updated store.  A missing/empty/non-dict fingerprint is modelled as
the `none` input. -/

/-- Whether a character list starts with a given pattern. -/
def charsStartsWith : List Char → List Char → Bool
  | _, [] => true
  | [], _ :: _ => false
  | h :: hs, p :: ps => h == p && charsStartsWith hs ps

/-- Whether a pattern occurs inside a character list. -/
def charsHasSub (pat : List Char) : List Char → Bool
  | [] => pat.isEmpty
  | h :: t => charsStartsWith (h :: t) pat || charsHasSub pat t

/-- Substring test: Python's `pat in s` (over the character sequence). -/
def strContains (s pat : String) : Bool := charsHasSub pat.data s.data

structure WebGLInfo where
  supported : Bool
  vendor : String
  renderer : String
  deriving Repr, DecidableEq

structure ScreenInfo where
  width : Option ℤ
  height : Option ℤ
  deriving Repr, DecidableEq

structure Fingerprint where
  hash : Option String
  userAgent : Option String
  language : Option String
  screen : Option ScreenInfo
  timezoneOffset : Option ℤ
  webgl : Option WebGLInfo
  canvasSupported : Option Bool
  canvasHash : Option String
  audioSupported : Option Bool
  webdriver : Option Bool
  hardwareConcurrency : Option ℤ
  plugins : Option (List String)
  inconsistencies : List String
  deriving Repr, DecidableEq

/-- Stand-in for `_generate_device_id` (a SHA-256 over the stable
attributes); embedded as a deterministic concatenation of the stable
fields — no claim depends on its value, only on its determinism. -/
def generateDeviceId (fp : Fingerprint) : String :=
  String.intercalate "|" [fp.userAgent.getD "", fp.language.getD "", fp.canvasHash.getD ""]

/-- `DeviceFingerprinter._check_automation_signs`. -/
def checkAutomationSigns (fp : Fingerprint) : Bool :=
  fp.inconsistencies.contains "automation_detected" ||
  fp.inconsistencies.contains "missing_graphics_support" ||
  fp.inconsistencies.contains "missing_audio_support" ||
  fp.webdriver.getD false ||
  fp.hardwareConcurrency == some 0 ||
  ((fp.plugins.getD []).isEmpty && strContains ((fp.userAgent.getD "").toLower) "chrome")

def desktopGpus : List String := ["nvidia", "amd", "intel hd graphics"]

/-- `DeviceFingerprinter._check_browser_spoofing`. -/
def checkBrowserSpoofing (fp : Fingerprint) : Bool :=
  fp.inconsistencies.contains "ua_platform_mismatch" ||
  fp.inconsistencies.contains "browser_plugin_mismatch" ||
  (match fp.webgl with
   | some w =>
     w.supported &&
       ((strContains ((fp.userAgent.getD "").toLower) "trident" ||
         strContains ((fp.userAgent.getD "").toLower) "msie") ||
        ((strContains ((fp.userAgent.getD "").toLower) "mobile" ||
          strContains ((fp.userAgent.getD "").toLower) "android") &&
          desktopGpus.any (fun g => strContains w.renderer.toLower g)))
   | none => false)

/-- `DeviceFingerprinter._check_fingerprint_tampering`. -/
def checkFingerprintTampering (fp : Fingerprint) : Bool :=
  fp.userAgent.isNone || fp.language.isNone || fp.screen.isNone || fp.timezoneOffset.isNone ||
  (match fp.canvasSupported with
   | some false =>
     !(strContains ((fp.userAgent.getD "").toLower) "msie" &&
       strContains ((fp.userAgent.getD "").toLower) "trident")
   | _ => false) ||
  (match fp.screen with
   | some sc => sc.width == some 1024 && sc.height == some 768
   | none => false)

/-- Issue list assembled by `analyze` (`_check_proxy_signs` always
returns `False` and contributes nothing). -/
def deviceIssues (fp : Fingerprint) : List String :=
  fp.inconsistencies ++
  (if checkAutomationSigns fp then ["automation_detected"] else []) ++
  (if checkBrowserSpoofing fp then ["browser_spoofing"] else []) ++
  (if checkFingerprintTampering fp then ["fingerprint_tampering"] else [])

/-- `DeviceFingerprinter._calculate_confidence_score`: multiplicative
deductions, rounded to two decimals, floored at 0.1. -/
def calcConfidence (fp : Fingerprint) : ℚ :=
  let d1 : ℚ := if fp.canvasHash.isNone then 8/10 else 1
  let d2 : ℚ := if (fp.webgl.map (·.supported)).getD false then 1 else 8/10
  let d3 : ℚ := if fp.audioSupported.getD false then 1 else 9/10
  let d4 : ℚ := if fp.inconsistencies.isEmpty then 1 else 7/10
  max (1/10) (pyRound2 (d1 * d2 * d3 * d4))

def issueScores : List (String × ℤ) :=
  [("invalid_fingerprint_data", 75), ("automation_detected", 85), ("browser_spoofing", 80),
   ("proxy_detected", 50), ("fingerprint_tampering", 70), ("ua_platform_mismatch", 75),
   ("browser_plugin_mismatch", 65), ("mobile_mismatch", 70), ("unrealistic_hardware", 60),
   ("missing_graphics_support", 65), ("missing_audio_support", 40), ("analysis_error", 60)]

/-- `DeviceFingerprinter._calculate_risk_score`. -/
def calcDeviceRisk (issues : List String) (is_known : Bool) : ℤ :=
  if issues.isEmpty && is_known then 0
  else
    let base : ℤ := if is_known then 25 else 50
    let maxIssue := issues.foldl (fun m i => max m ((issueScores.lookup i).getD 50)) 0
    if base < maxIssue then maxIssue else base

structure DeviceData where
  device_id : String
  first_seen : ℤ
  last_seen : ℤ
  visit_count : ℤ
  fingerprints : List Fingerprint
  issues_history : List String
  deriving Repr, DecidableEq

abbrev DeviceStore := List (String × DeviceData)

def deviceLookup (store : DeviceStore) (id : String) : Option DeviceData :=
  (store.find? (fun p => p.1 == id)).map (·.2)

def deviceUpsert (store : DeviceStore) (id : String) (d : DeviceData) : DeviceStore :=
  if store.any (fun p => p.1 == id) then
    store.map (fun p => if p.1 == id then (p.1, d) else p)
  else store ++ [(id, d)]

/-- `DeviceFingerprinter._store_fingerprint`: create a new record with
`visit_count` 1, or bump `visit_count`, refresh `last_seen`, keep the 5
most recent fingerprints and union the issues into the history (Python's
`list(set(...))` is embedded as deduplication; the claims do not depend
on its ordering). -/
def storeFingerprint (store : DeviceStore) (device_id : String) (fp : Fingerprint)
    (issues : List String) (now : ℤ) : DeviceStore :=
  match deviceLookup store device_id with
  | none => deviceUpsert store device_id ⟨device_id, now, now, 1, [fp], issues⟩
  | some d =>
    let fps := d.fingerprints ++ [fp]
    deviceUpsert store device_id
      { d with last_seen := now, visit_count := d.visit_count + 1,
               fingerprints := fps.drop (fps.length - 5),
               issues_history :=
                 if issues.isEmpty then d.issues_history
                 else (d.issues_history ++ issues).dedup }

/-- The result dict of `DeviceFingerprinter.analyze`.  Fields that the
code only sometimes sets are `Option`s; `history_visit_count` models
`result['device_history']['visit_count']` when present. -/
structure DeviceResult where
  risk_score : ℤ
  issues : List String
  is_suspicious : Bool
  device_id : Option String
  is_known_device : Option Bool
  confidence_score : Option ℚ
  history_visit_count : Option ℤ
  deriving Repr, DecidableEq

/-- Body of `DeviceFingerprinter.analyze` for a well-formed fingerprint
dict.  Note that the device history reported in the result is the record
read *before* `_store_fingerprint` runs. -/
def deviceAnalyzeBody (fp : Fingerprint) (store : DeviceStore) (now : ℤ) :
    DeviceResult × DeviceStore :=
  let device_id := match fp.hash with
    | some h => if h = "" then generateDeviceId fp else h
    | none => generateDeviceId fp
  let known := deviceLookup store device_id
  let issues := deviceIssues fp
  let risk := calcDeviceRisk issues known.isSome
  let store' := storeFingerprint store device_id fp issues now
  ({ risk_score := risk, issues := issues, is_suspicious := decide (risk > 50),
     device_id := some device_id, is_known_device := some known.isSome,
     confidence_score := some (calcConfidence fp),
     history_visit_count := known.map (·.visit_count) }, store')

/-- `DeviceFingerprinter.analyze` on a valid input; a missing, empty or
non-dict fingerprint (`none`) yields the fixed invalid-data result. -/
def deviceAnalyze (fpOpt : Option Fingerprint) (store : DeviceStore) (now : ℤ) :
    DeviceResult × DeviceStore :=
  match fpOpt with
  | none => (⟨75, ["invalid_fingerprint_data"], true, none, none, none, none⟩, store)
  | some fp => deviceAnalyzeBody fp store now

/-- The `try/except` boundary of `DeviceFingerprinter.analyze`: an
exception becomes risk 60 with issue `analysis_error` (and neither a
`status` nor an `is_known_device` key); no store write happens. -/
def deviceCatch (body : Except String (DeviceResult × DeviceStore)) (store : DeviceStore) :
    DeviceResult × DeviceStore :=
  match body with
  | .ok r => r
  | .error _ => (⟨60, ["analysis_error"], true, none, none, none, none⟩, store)

/-- C6 (amended).  Submitting the identical fingerprint (same device id)
twice, starting from an empty device store: the second call returns
`is_known_device` true, but the `device_history` it reports carries
`visit_count` 1 — the history read before the store update; the *stored*
record after the second call has `visit_count` 2. -/
theorem C6_second_submission (fp : Fingerprint) (id : String) (t1 t2 : ℤ)
    (hhash : fp.hash = some id) (hne : id ≠ "") :
    (deviceAnalyze (some fp) (deviceAnalyze (some fp) [] t1).2 t2).1.is_known_device = some true ∧
    (deviceAnalyze (some fp) (deviceAnalyze (some fp) [] t1).2 t2).1.history_visit_count = some 1 ∧
    (deviceLookup (deviceAnalyze (some fp) (deviceAnalyze (some fp) [] t1).2 t2).2 id).map
      (·.visit_count) = some 2 := by
  have hid : (match fp.hash with
      | some h => if h = "" then generateDeviceId fp else h
      | none => generateDeviceId fp) = id := by
    rw [hhash]; exact if_neg hne
  have hstore1 : (deviceAnalyze (some fp) [] t1).2 =
      [(id, ⟨id, t1, t1, 1, [fp], deviceIssues fp⟩)] := by
    simp only [deviceAnalyze, deviceAnalyzeBody, hid]
    rfl
  have hlk : deviceLookup [(id, (⟨id, t1, t1, 1, [fp], deviceIssues fp⟩ : DeviceData))] id =
      some ⟨id, t1, t1, 1, [fp], deviceIssues fp⟩ := by
    simp [deviceLookup]
  rw [hstore1]
  simp only [deviceAnalyze, deviceAnalyzeBody, hid]
  refine ⟨?_, ?_, ?_⟩
  · rw [hlk]; rfl
  · rw [hlk]; rfl
  · show (deviceLookup (storeFingerprint
        [(id, ⟨id, t1, t1, 1, [fp], deviceIssues fp⟩)] id fp (deviceIssues fp) t2) id).map
        (·.visit_count) = some 2
    rw [storeFingerprint, hlk]
    simp [deviceUpsert, deviceLookup]

/-- Counterexample to C6 as stated: for a concrete clean fingerprint
submitted twice, the second call reports `visit_count` 1, not 2. -/
theorem C6_counterexample :
    (deviceAnalyze (some ⟨some "d1", some "ua", some "en", some ⟨some 1920, some 1080⟩,
        some 0, some ⟨true, "v", "r"⟩, some true, some "ch", some true, some false,
        some 8, some ["p"], []⟩)
      (deviceAnalyze (some ⟨some "d1", some "ua", some "en", some ⟨some 1920, some 1080⟩,
        some 0, some ⟨true, "v", "r"⟩, some true, some "ch", some true, some false,
        some 8, some ["p"], []⟩) [] 100).2 200).1.is_known_device = some true ∧
    (deviceAnalyze (some ⟨some "d1", some "ua", some "en", some ⟨some 1920, some 1080⟩,
        some 0, some ⟨true, "v", "r"⟩, some true, some "ch", some true, some false,
        some 8, some ["p"], []⟩)
      (deviceAnalyze (some ⟨some "d1", some "ua", some "en", some ⟨some 1920, some 1080⟩,
        some 0, some ⟨true, "v", "r"⟩, some true, some "ch", some true, some false,
        some 8, some ["p"], []⟩) [] 100).2 200).1.history_visit_count ≠ some 2 ∧
    (deviceAnalyze (some ⟨some "d1", some "ua", some "en", some ⟨some 1920, some 1080⟩,
        some 0, some ⟨true, "v", "r"⟩, some true, some "ch", some true, some false,
        some 8, some ["p"], []⟩)
      (deviceAnalyze (some ⟨some "d1", some "ua", some "en", some ⟨some 1920, some 1080⟩,
        some 0, some ⟨true, "v", "r"⟩, some true, some "ch", some true, some false,
        some 8, some ["p"], []⟩) [] 100).2 200).1.history_visit_count = some 1 := by
  exact ⟨rfl, by decide, rfl⟩

/-- Witness for C6 applied at the concrete clean fingerprint. -/
theorem C6_second_submission_witness :
    (deviceAnalyze (some ⟨some "w1", some "ua", some "en", some ⟨some 1920, some 1080⟩,
        some 0, some ⟨true, "v", "r"⟩, some true, some "ch", some true, some false,
        some 8, some ["p"], []⟩)
      (deviceAnalyze (some ⟨some "w1", some "ua", some "en", some ⟨some 1920, some 1080⟩,
        some 0, some ⟨true, "v", "r"⟩, some true, some "ch", some true, some false,
        some 8, some ["p"], []⟩) [] 100).2 200).1.is_known_device = some true :=
  (C6_second_submission ⟨some "w1", some "ua", some "en", some ⟨some 1920, some 1080⟩,
      some 0, some ⟨true, "v", "r"⟩, some true, some "ch", some true, some false,
      some 8, some ["p"], []⟩ "w1" 100 200 rfl (by decide)).1

/-! ### Session anomaly detector (`app/predictors/session_anomaly.py`)

Session events carry a `type` and a `timestamp`; the per-user behaviour
model's transition matrix is an association list from action to an
association list of next-action probabilities.  `detect` sorts the events
by timestamp (Python's stable `sorted`), runs the timing, sequence and
activity checks, combines them with `max`, and scales the combined
anomaly into the 0-100 risk band.  The model update that `detect`
performs afterwards (only when the combined anomaly is below 0.7) is
embedded separately as `sessionUpdateTransitions`. -/

structure SessionEvent where
  etype : String
  timestamp : ℤ
  deriving Repr, DecidableEq

/-- Stable insertion (ties keep the earlier element first), matching
Python's stable `sorted(events, key=timestamp)`. -/
def insertByTime (e : SessionEvent) : List SessionEvent → List SessionEvent
  | [] => [e]
  | x :: xs => if e.timestamp ≤ x.timestamp then e :: x :: xs else x :: insertByTime e xs

def sortEvents : List SessionEvent → List SessionEvent
  | [] => []
  | e :: rest => insertByTime e (sortEvents rest)

/-- Consecutive pairs of a list (`zip(l, l[1:])`). -/
def consecPairs {α : Type} : List α → List (α × α)
  | [] => []
  | [_] => []
  | a :: b :: rest => (a, b) :: consecPairs (b :: rest)

structure AnomalyCheck where
  detected : Bool
  score : ℚ
  deriving Repr, DecidableEq

/-- `SessionAnomalyDetector._check_timing_anomalies`: gap below 1 s
scores 0.8, gap above 1800 s scores 0.6, session longer than
5 × 900 s scores 0.5; the loop keeps the maximum. -/
def checkTimingAnomalies (events : List SessionEvent) : AnomalyCheck :=
  let diffs := (consecPairs events).map (fun p => p.2.timestamp - p.1.timestamp)
  let fast := diffs.any (fun d => decide (d < 1))
  let gap := diffs.any (fun d => decide (1800 < d))
  let long := decide (2 ≤ events.length) &&
    decide (4500 < (events.getLastD ⟨"", 0⟩).timestamp - (events.headD ⟨"", 0⟩).timestamp)
  ⟨fast || gap || long,
   max (max (if fast then (8/10 : ℚ) else 0) (if gap then 6/10 else 0))
     (if long then 5/10 else 0)⟩

abbrev TransitionMatrix := List (String × List (String × ℚ))

def lookupRow (m : TransitionMatrix) (k : String) : Option (List (String × ℚ)) :=
  (m.find? (fun p => p.1 == k)).map (·.2)

def lookupProb (row : List (String × ℚ)) (k : String) : Option ℚ :=
  (row.find? (fun p => p.1 == k)).map (·.2)

/-- Contribution of one transition to the sequence anomaly score: a
transition present with probability below 0.05 contributes
`1 - p/0.05`, an absent transition contributes 0.7, anything else 0. -/
def transitionScore (m : TransitionMatrix) (prevT curT : String) : ℚ :=
  match lookupRow m prevT with
  | some row =>
    match lookupProb row curT with
    | some p => if p < 5/100 then 1 - p / (5/100) else 0
    | none => 7/10
  | none => 7/10

/-- Whether one transition is recorded as a sequence anomaly. -/
def transitionAnomalous (m : TransitionMatrix) (prevT curT : String) : Bool :=
  match lookupRow m prevT with
  | some row =>
    match lookupProb row curT with
    | some p => decide (p < 5/100)
    | none => true
  | none => true

/-- Same action at least 4 times in a row. -/
def hasRepeatedAction : List String → Bool
  | a :: b :: c :: d :: rest =>
    (a == b && b == c && c == d) || hasRepeatedAction (b :: c :: d :: rest)
  | _ => false

/-- A-B-A-B-A-B alternation over six consecutive events. -/
def hasCyclicPattern : List String → Bool
  | a :: b :: c :: d :: e :: f :: rest =>
    (a == c && c == e && b == d && d == f && a != b) ||
      hasCyclicPattern (b :: c :: d :: e :: f :: rest)
  | _ => false

/-- At least 7 distinct actions within the first 10 of a session of at
least 10 events. -/
def hasRapidNavigation (types : List String) : Bool :=
  decide (7 ≤ (types.take 10).dedup.length) && decide (10 ≤ types.length)

/-- `SessionAnomalyDetector._check_sequence_anomalies` (including
`_check_unusual_patterns`, any of which forces the score to at least
0.8). -/
def checkSequenceAnomalies (events : List SessionEvent) (m : TransitionMatrix) : AnomalyCheck :=
  let types := events.map (·.etype)
  let pairs := consecPairs types
  let transScore := (pairs.map (fun p => transitionScore m p.1 p.2)).foldl max 0
  let anyTrans := pairs.any (fun p => transitionAnomalous m p.1 p.2)
  let pat := hasRepeatedAction types || hasCyclicPattern types || hasRapidNavigation types
  ⟨anyTrans || pat, if pat then max transScore (8/10) else transScore⟩

/-- The `suspicious_activities` weight table. -/
def suspiciousActivities : List (String × ℤ) :=
  [("change_email", 15), ("change_password", 10), ("add_payment_method", 20),
   ("large_transaction", 25), ("export_data", 15), ("delete_account", 30),
   ("multiple_failed_payments", 20), ("api_access", 10),
   ("change_security_questions", 20), ("disable_2fa", 30)]

/-- One iteration of the `_check_activity_anomalies` loop. -/
def activityStep (acc : ℕ × ℚ) (e : SessionEvent) : ℕ × ℚ :=
  match suspiciousActivities.lookup e.etype with
  | some w => (acc.1 + 1, max acc.2 (min ((w : ℚ) / 30) 1))
  | none => acc

/-- The loop of `_check_activity_anomalies`: count the suspicious events
and keep the maximum of `min(weight/30, 1)` over them. -/
def activityFold (events : List SessionEvent) : ℕ × ℚ :=
  events.foldl activityStep (0, 0)

/-- `SessionAnomalyDetector._check_activity_anomalies`: 3 or more
suspicious actions force 0.9, 2 force at least 0.7. -/
def checkActivityAnomalies (events : List SessionEvent) : AnomalyCheck :=
  let c := (activityFold events).1
  let s := (activityFold events).2
  ⟨decide (1 ≤ c), if 3 ≤ c then max s (9/10) else if 2 ≤ c then max s (7/10) else s⟩

/-- `SessionAnomalyDetector._calculate_risk_score`: 0 below anomaly 0.2,
else `(a - 0.2)/0.8*100` truncated to an int and clamped to 0-100. -/
def calcSessionRisk (a : ℚ) : ℤ :=
  if a < 2/10 then 0
  else min 100 (max 0 ⌊(a - 2/10) / (8/10) * 100⌋)

/-- The `default_transitions` matrix for new users. -/
def defaultTransitions : TransitionMatrix :=
  [("login", [("view_dashboard", 6/10), ("view_profile", 3/10), ("view_settings", 1/10)]),
   ("view_dashboard", [("view_account", 4/10), ("view_transactions", 3/10),
     ("logout", 2/10), ("view_profile", 1/10)]),
   ("view_account", [("view_transactions", 5/10), ("view_dashboard", 3/10), ("logout", 2/10)]),
   ("view_transactions", [("view_dashboard", 4/10), ("view_account", 3/10), ("logout", 3/10)]),
   ("view_profile", [("view_dashboard", 5/10), ("edit_profile", 3/10), ("logout", 2/10)]),
   ("edit_profile", [("view_profile", 7/10), ("view_dashboard", 2/10), ("logout", 1/10)]),
   ("view_settings", [("view_dashboard", 5/10), ("edit_settings", 3/10), ("logout", 2/10)]),
   ("edit_settings", [("view_settings", 7/10), ("view_dashboard", 2/10), ("logout", 1/10)])]

structure SessionResult where
  risk_score : ℤ
  status : String
  anomaly_score : Option ℚ
  deriving Repr, DecidableEq

/-- `SessionAnomalyDetector.detect` (result only; the model update it
performs for combined anomaly below 0.7 is `sessionUpdateTransitions`).
`userModel` is `none` when the store has no model for the user, in which
case `_get_user_model` supplies the default matrix. -/
def sessionDetect (userModel : Option TransitionMatrix)
    (session_events : List SessionEvent) : SessionResult :=
  if session_events.length < 2 then ⟨0, "insufficient_data", some 0⟩
  else
    let sorted := sortEvents session_events
    let transitions := userModel.getD defaultTransitions
    let t := checkTimingAnomalies sorted
    let s := checkSequenceAnomalies sorted transitions
    let a := checkActivityAnomalies sorted
    let combined := max (max t.score s.score) a.score
    let risk := calcSessionRisk combined
    ⟨risk,
     if 80 ≤ risk then "high_risk_behavior"
     else if 50 ≤ risk then "suspicious_behavior"
     else "normal_behavior",
     some (pyRound2 combined)⟩

/-! Model update (`SessionAnomalyDetector._update_user_model`): each
observed transition adds 0.1 to its cell (dict rows have unique keys)
and the touched source row is renormalized to sum to 1. -/

def rowAdd (row : List (String × ℚ)) (cur : String) : List (String × ℚ) :=
  if row.any (fun p => p.1 == cur) then
    row.map (fun p => if p.1 == cur then (p.1, p.2 + 1/10) else p)
  else row ++ [(cur, 1/10)]

def rowNormalize (row : List (String × ℚ)) : List (String × ℚ) :=
  row.map (fun p => (p.1, p.2 / (row.map (·.2)).sum))

def updateRow (m : TransitionMatrix) (prevT curT : String) : TransitionMatrix :=
  let m1 := if m.any (fun p => p.1 == prevT) then m else m ++ [(prevT, [])]
  m1.map (fun r => if r.1 == prevT then (r.1, rowNormalize (rowAdd r.2 curT)) else r)

def updateTransitions (m : TransitionMatrix) (pairs : List (String × String)) : TransitionMatrix :=
  pairs.foldl (fun acc pc => updateRow acc pc.1 pc.2) m

/-- The transition-matrix part of `_update_user_model` for one session's
sorted events. -/
def sessionUpdateTransitions (m : TransitionMatrix) (events : List SessionEvent) : TransitionMatrix :=
  updateTransitions m (consecPairs (events.map (·.etype)))

/-- Every row of a transition matrix sums to 1. -/
def RowSumsOne (m : TransitionMatrix) : Prop := ∀ r ∈ m, (r.2.map (·.2)).sum = 1

/-- Every row of a transition matrix has pairwise-distinct keys (the
dict invariant). -/
def RowKeysNodup (m : TransitionMatrix) : Prop := ∀ r ∈ m, (r.2.map (·.1)).Nodup

theorem sum_div_list (l : List ℚ) (t : ℚ) : (l.map (fun x => x / t)).sum = l.sum / t := by
  induction l with
  | nil => simp
  | cons a rest ih => simp [ih, add_div]

theorem rowNormalize_sum (row : List (String × ℚ)) (h : (row.map (·.2)).sum ≠ 0) :
    ((rowNormalize row).map (·.2)).sum = 1 := by
  have hmap : (rowNormalize row).map (·.2) =
      (row.map (·.2)).map (fun x => x / (row.map (·.2)).sum) := by
    simp only [rowNormalize, List.map_map]; rfl
  rw [hmap, sum_div_list, div_self h]

theorem rowNormalize_keys (row : List (String × ℚ)) :
    (rowNormalize row).map (·.1) = row.map (·.1) := by
  simp only [rowNormalize, List.map_map]; rfl

/-- Adding 0.1 to the unique matching cell bumps the row sum by 0.1. -/
theorem bump_sum (t : List (String × ℚ)) (cur : String)
    (hany : t.any (fun p => p.1 == cur) = true)
    (hnd : (t.map (·.1)).Nodup) :
    ((t.map (fun p => if p.1 == cur then (p.1, p.2 + 1/10) else p)).map (·.2)).sum
      = (t.map (·.2)).sum + 1/10 := by
  induction t with
  | nil => simp at hany
  | cons a t ih =>
    rw [List.map_cons, List.nodup_cons] at hnd
    by_cases ha : (a.1 == cur) = true
    · have ha' : a.1 = cur := by simpa using ha
      have hrest : t.map (fun p => if p.1 == cur then (p.1, p.2 + 1/10) else p) = t := by
        have hp : ∀ p ∈ t, (if p.1 == cur then (p.1, p.2 + 1/10) else p) = p := by
          intro p hpmem
          rw [if_neg]
          intro hc
          have hpc : p.1 = cur := by simpa using hc
          exact hnd.1 (by rw [ha', ← hpc]; exact List.mem_map_of_mem _ hpmem)
        rw [List.map_congr_left hp]; simp
      simp only [List.map_cons, List.sum_cons, if_pos ha, hrest]
      ring
    · have ht : t.any (fun p => p.1 == cur) = true := by
        have h' := hany
        simp only [List.any_cons, Bool.or_eq_true] at h'
        exact h'.resolve_left ha
      simp only [List.map_cons, List.sum_cons, if_neg ha, ih ht hnd.2]
      ring

theorem rowAdd_sum (row : List (String × ℚ)) (cur : String)
    (hnd : (row.map (·.1)).Nodup) :
    ((rowAdd row cur).map (·.2)).sum = (row.map (·.2)).sum + 1/10 := by
  unfold rowAdd
  by_cases h : row.any (fun p => p.1 == cur) = true
  · rw [if_pos h]; exact bump_sum row cur h hnd
  · rw [if_neg h]; simp

theorem rowAdd_keys_nodup (row : List (String × ℚ)) (cur : String)
    (hnd : (row.map (·.1)).Nodup) :
    ((rowAdd row cur).map (·.1)).Nodup := by
  unfold rowAdd
  by_cases h : row.any (fun p => p.1 == cur) = true
  · rw [if_pos h, List.map_map]
    have heq : row.map ((·.1) ∘ fun p => if p.1 == cur then (p.1, p.2 + 1/10) else p)
        = row.map (·.1) := by
      apply List.map_congr_left
      intro p _
      show (if p.1 == cur then (p.1, p.2 + 1/10) else p).1 = p.1
      split <;> rfl
    rw [heq]; exact hnd
  · rw [if_neg h, List.map_append, List.nodup_append]
    refine ⟨hnd, by simp, ?_⟩
    intro x hx hx2
    simp only [List.map_cons, List.map_nil, List.mem_cons, List.not_mem_nil, or_false] at hx2
    obtain ⟨p, hp, hpx⟩ := List.mem_map.mp hx
    apply h
    rw [List.any_eq_true]
    exact ⟨p, hp, beq_iff_eq.mpr (by rw [hpx, hx2])⟩

theorem updateRow_preserves (m : TransitionMatrix) (prevT curT : String)
    (h1 : RowSumsOne m) (h2 : RowKeysNodup m) :
    RowSumsOne (updateRow m prevT curT) ∧ RowKeysNodup (updateRow m prevT curT) := by
  have hm1mem : ∀ r ∈ (if m.any (fun p => p.1 == prevT) then m else m ++ [(prevT, [])]),
      r ∈ m ∨ r = (prevT, ([] : List (String × ℚ))) := by
    intro r hr
    split at hr
    · exact Or.inl hr
    · rcases List.mem_append.mp hr with hmem | hmem
      · exact Or.inl hmem
      · right; simpa using hmem
  constructor <;> intro r hr <;> simp only [updateRow] at hr <;>
    obtain ⟨r0, hr0, rfl⟩ := List.mem_map.mp hr
  · by_cases hk : (r0.1 == prevT) = true
    · rw [if_pos hk]
      show ((rowNormalize (rowAdd r0.2 curT)).map (·.2)).sum = 1
      have hnd0 : (r0.2.map (·.1)).Nodup := by
        rcases hm1mem r0 hr0 with hmem | hmem
        · exact h2 r0 hmem
        · rw [hmem]; simp
      apply rowNormalize_sum
      rw [rowAdd_sum r0.2 curT hnd0]
      rcases hm1mem r0 hr0 with hmem | hmem
      · rw [h1 r0 hmem]; norm_num
      · rw [hmem]; norm_num
    · rw [if_neg hk]
      rcases hm1mem r0 hr0 with hmem | hmem
      · exact h1 r0 hmem
      · exact absurd (by rw [hmem]; simp) hk
  · by_cases hk : (r0.1 == prevT) = true
    · rw [if_pos hk]
      show ((rowNormalize (rowAdd r0.2 curT)).map (·.1)).Nodup
      rw [rowNormalize_keys]
      apply rowAdd_keys_nodup
      rcases hm1mem r0 hr0 with hmem | hmem
      · exact h2 r0 hmem
      · rw [hmem]; simp
    · rw [if_neg hk]
      rcases hm1mem r0 hr0 with hmem | hmem
      · exact h2 r0 hmem
      · exact absurd (by rw [hmem]; simp) hk

theorem updateTransitions_preserves (pairs : List (String × String)) (m : TransitionMatrix)
    (h1 : RowSumsOne m) (h2 : RowKeysNodup m) :
    RowSumsOne (updateTransitions m pairs) ∧ RowKeysNodup (updateTransitions m pairs) := by
  induction pairs generalizing m with
  | nil => exact ⟨h1, h2⟩
  | cons pc rest ih =>
    obtain ⟨ha, hb⟩ := updateRow_preserves m pc.1 pc.2 h1 h2
    exact ih (updateRow m pc.1 pc.2) ha hb

/-- C7.  For every user behaviour model whose transition-matrix rows
each sum to 1 (with dict-unique keys per row), after the Session Anomaly
Detector's model update for any session (adding weight 0.1 to each
observed transition and renormalizing the touched row), every row of the
updated transition matrix again sums to 1 — exactly, hence within any
epsilon. -/
theorem C7_rows_sum_to_one_after_update (m : TransitionMatrix) (events : List SessionEvent)
    (h1 : RowSumsOne m) (h2 : RowKeysNodup m) :
    RowSumsOne (sessionUpdateTransitions m events) := by
  rw [sessionUpdateTransitions]
  exact (updateTransitions_preserves (consecPairs (events.map (·.etype))) m h1 h2).1

/-- Witness for C7: updating the default matrix with a concrete session
(`login` then `export_data`, an action absent from the matrix) keeps all
row sums at 1. -/
theorem C7_rows_sum_to_one_after_update_witness :
    RowSumsOne (sessionUpdateTransitions defaultTransitions
      [⟨"login", 0⟩, ⟨"export_data", 10⟩]) := by
  apply C7_rows_sum_to_one_after_update
  · intro r hr
    simp only [defaultTransitions, List.mem_cons, List.not_mem_nil, or_false] at hr
    rcases hr with rfl | rfl | rfl | rfl | rfl | rfl | rfl | rfl <;> norm_num
  · intro r hr
    simp only [defaultTransitions, List.mem_cons, List.not_mem_nil, or_false] at hr
    rcases hr with rfl | rfl | rfl | rfl | rfl | rfl | rfl | rfl <;> simp

theorem activityFold_count_aux (l : List SessionEvent) (acc : ℕ × ℚ) :
    (l.foldl activityStep acc).1 =
      acc.1 + l.countP (fun e => (suspiciousActivities.lookup e.etype).isSome) := by
  induction l generalizing acc with
  | nil => simp
  | cons e t ih =>
    rw [List.foldl_cons, List.countP_cons, ih]
    cases hl : suspiciousActivities.lookup e.etype with
    | none => simp [activityStep, hl]
    | some w =>
      simp [activityStep, hl]
      omega

theorem activityFold_snd_le (l : List SessionEvent) (acc : ℕ × ℚ)
    (hacc : acc.2 ≤ 5/6)
    (h : ∀ e ∈ l, (suspiciousActivities.lookup e.etype).getD 0 ≤ 25) :
    (l.foldl activityStep acc).2 ≤ 5/6 := by
  induction l generalizing acc with
  | nil => simpa
  | cons e t ih =>
    rw [List.foldl_cons]
    apply ih
    · cases hl : suspiciousActivities.lookup e.etype with
      | none => simpa [activityStep, hl]
      | some w =>
        have hw : (w : ℚ) ≤ 25 := by
          have h25 := h e (by simp)
          rw [hl] at h25
          exact_mod_cast h25
        simp only [activityStep, hl]
        apply max_le hacc
        calc min ((w : ℚ) / 30) 1 ≤ (w : ℚ) / 30 := min_le_left _ _
          _ ≤ 5/6 := by linarith
    · intro e' he'
      exact h e' (by simp [he'])

/-- With exactly three suspicious events none of which has weight above
25, the activity anomaly score is forced to 0.9. -/
theorem checkActivity_score_three (events : List SessionEvent)
    (hcount : events.countP (fun e => (suspiciousActivities.lookup e.etype).isSome) = 3)
    (hw : ∀ e ∈ events, (suspiciousActivities.lookup e.etype).getD 0 ≤ 25) :
    (checkActivityAnomalies events).score = 9/10 := by
  have hc : (activityFold events).1 = 3 := by
    rw [activityFold, activityFold_count_aux]
    simpa using hcount
  have hs : (activityFold events).2 ≤ 5/6 :=
    activityFold_snd_le events (0, 0) (by norm_num) hw
  simp only [checkActivityAnomalies, hc]
  rw [if_pos (le_refl 3)]
  exact max_eq_right (by linarith)

theorem pyRound_intCast (z : ℤ) : pyRound (z : ℚ) = z := by
  norm_num [pyRound, Int.floor_intCast]

/-- C3 (amended).  For every session of at least 2 events containing
exactly 3 sensitive actions, none of which carries the maximal weight 30
(i.e. none is `disable_2fa` or `delete_account`), and exhibiting no
timing or sequence anomaly, the combined anomaly score is 0.9 and the
returned risk score is 87 (`int((0.9-0.2)/0.8*100)`). -/
theorem C3_three_sensitive_actions (events : List SessionEvent)
    (userModel : Option TransitionMatrix)
    (hlen : 2 ≤ events.length)
    (hcount : (sortEvents events).countP
      (fun e => (suspiciousActivities.lookup e.etype).isSome) = 3)
    (hw : ∀ e ∈ sortEvents events, (suspiciousActivities.lookup e.etype).getD 0 ≤ 25)
    (ht : (checkTimingAnomalies (sortEvents events)).score = 0)
    (hs : (checkSequenceAnomalies (sortEvents events)
      (userModel.getD defaultTransitions)).score = 0) :
    sessionDetect userModel events = ⟨87, "high_risk_behavior", some (9/10)⟩ := by
  have hact : (checkActivityAnomalies (sortEvents events)).score = 9/10 :=
    checkActivity_score_three _ hcount hw
  have hnl : ¬ (events.length < 2) := by omega
  have hcomb : max (max (0 : ℚ) 0) (9/10) = 9/10 := by norm_num
  have hrisk : calcSessionRisk (9/10) = 87 := by
    rw [calcSessionRisk, if_neg (by norm_num)]
    have hfl : ⌊((9/10 : ℚ) - 2/10) / (8/10) * 100⌋ = 87 := by
      rw [show ((9/10 : ℚ) - 2/10) / (8/10) * 100 = 175/2 by norm_num]
      rw [Int.floor_eq_iff]
      constructor <;> norm_num
    rw [hfl]
    rfl
  have hround : pyRound2 (9/10) = 9/10 := by
    rw [pyRound2, show ((9/10 : ℚ) * 100) = ((90 : ℤ) : ℚ) by norm_num, pyRound_intCast]
    norm_num
  simp only [sessionDetect, if_neg hnl, ht, hs, hact, hcomb, hrisk, hround]
  rfl

/-- Counterexample to C3 as stated: the session `disable_2fa`,
`change_email`, `export_data` (the claim's own example) has 3 distinct
sensitive actions and no timing or sequence anomaly, yet the combined
anomaly score is 1.0 (because `disable_2fa` has weight 30, contributing
`min(30/30, 1) = 1.0 > 0.9`) and the risk score is 100, not 87. -/
theorem C3_counterexample :
    ((sortEvents [⟨"disable_2fa", 100⟩, ⟨"change_email", 200⟩, ⟨"export_data", 300⟩]).countP
      (fun e => (suspiciousActivities.lookup e.etype).isSome) = 3) ∧
    ((checkTimingAnomalies (sortEvents
      [⟨"disable_2fa", 100⟩, ⟨"change_email", 200⟩, ⟨"export_data", 300⟩])).detected = false) ∧
    ((checkSequenceAnomalies (sortEvents
        [⟨"disable_2fa", 100⟩, ⟨"change_email", 200⟩, ⟨"export_data", 300⟩])
      ((some [("disable_2fa", [("change_email", (1 : ℚ))]),
              ("change_email", [("export_data", (1 : ℚ))])]).getD
        defaultTransitions)).detected = false) ∧
    ((sessionDetect
      (some [("disable_2fa", [("change_email", (1 : ℚ))]),
             ("change_email", [("export_data", (1 : ℚ))])])
      [⟨"disable_2fa", 100⟩, ⟨"change_email", 200⟩, ⟨"export_data", 300⟩]).anomaly_score = some 1) ∧
    ((sessionDetect
      (some [("disable_2fa", [("change_email", (1 : ℚ))]),
             ("change_email", [("export_data", (1 : ℚ))])])
      [⟨"disable_2fa", 100⟩, ⟨"change_email", 200⟩, ⟨"export_data", 300⟩]).risk_score = 100) := by
  have hsort : sortEvents [⟨"disable_2fa", 100⟩, ⟨"change_email", 200⟩, ⟨"export_data", 300⟩] =
      [⟨"disable_2fa", 100⟩, ⟨"change_email", 200⟩, ⟨"export_data", 300⟩] := by decide
  have hT : (checkTimingAnomalies
      [(⟨"disable_2fa", 100⟩ : SessionEvent), ⟨"change_email", 200⟩, ⟨"export_data", 300⟩])
      = ⟨false, 0⟩ := by decide
  have hS : (checkSequenceAnomalies
      [(⟨"disable_2fa", 100⟩ : SessionEvent), ⟨"change_email", 200⟩, ⟨"export_data", 300⟩]
      [("disable_2fa", [("change_email", (1 : ℚ))]),
       ("change_email", [("export_data", (1 : ℚ))])]) = ⟨false, 0⟩ := by
    simp only [checkSequenceAnomalies, consecPairs, transitionScore, transitionAnomalous,
      lookupRow, lookupProb, List.find?, String.reduceBEq, Option.map_some, List.map_cons,
      List.map_nil, List.any_cons, List.any_nil, List.foldl_cons, List.foldl_nil,
      hasRepeatedAction, hasCyclicPattern, hasRapidNavigation]
    norm_num
  have hA : (checkActivityAnomalies
      [(⟨"disable_2fa", 100⟩ : SessionEvent), ⟨"change_email", 200⟩, ⟨"export_data", 300⟩]).score
      = 1 := by
    simp only [checkActivityAnomalies, activityFold, activityStep, suspiciousActivities,
      List.lookup, String.reduceBEq, List.foldl_cons, List.foldl_nil]
    norm_num
  have hcomb : max (max (0 : ℚ) 0) 1 = 1 := by norm_num
  have hrisk : calcSessionRisk 1 = 100 := by
    rw [calcSessionRisk, if_neg (by norm_num)]
    have hfl : ⌊((1 : ℚ) - 2/10) / (8/10) * 100⌋ = 100 := by
      rw [show ((1 : ℚ) - 2/10) / (8/10) * 100 = ((100 : ℤ) : ℚ) by norm_num, Int.floor_intCast]
    rw [hfl]
    rfl
  have hround : pyRound2 1 = 1 := by
    rw [pyRound2, show ((1 : ℚ) * 100) = ((100 : ℤ) : ℚ) by norm_num, pyRound_intCast]
    norm_num
  have hTs : (checkTimingAnomalies
      [(⟨"disable_2fa", 100⟩ : SessionEvent), ⟨"change_email", 200⟩, ⟨"export_data", 300⟩]).score
      = 0 := by rw [hT]
  have hSs : (checkSequenceAnomalies
      [(⟨"disable_2fa", 100⟩ : SessionEvent), ⟨"change_email", 200⟩, ⟨"export_data", 300⟩]
      [("disable_2fa", [("change_email", (1 : ℚ))]),
       ("change_email", [("export_data", (1 : ℚ))])]).score = 0 := by rw [hS]
  have hdetect : sessionDetect
      (some [("disable_2fa", [("change_email", (1 : ℚ))]),
             ("change_email", [("export_data", (1 : ℚ))])])
      [⟨"disable_2fa", 100⟩, ⟨"change_email", 200⟩, ⟨"export_data", 300⟩]
      = ⟨100, "high_risk_behavior", some 1⟩ := by
    simp only [sessionDetect]
    rw [if_neg (by decide), hsort, Option.getD_some, hTs, hSs, hA, hcomb, hrisk, hround,
      if_pos (by decide : (80 : ℤ) ≤ 100)]
  refine ⟨by decide, ?_, ?_, ?_, ?_⟩
  · rw [hsort, hT]
  · rw [hsort, Option.getD_some, hS]
  · rw [hdetect]
  · rw [hdetect]

/-- Witness for C3 at a concrete session of three sensitive actions of
weights 15, 15 and 10 with covering transitions and normal timing. -/
theorem C3_three_sensitive_actions_witness :
    sessionDetect
      (some [("change_email", [("export_data", (1 : ℚ))]),
             ("export_data", [("change_password", (1 : ℚ))])])
      [⟨"change_email", 100⟩, ⟨"export_data", 200⟩, ⟨"change_password", 300⟩] =
      ⟨87, "high_risk_behavior", some (9/10)⟩ := by
  apply C3_three_sensitive_actions
  · decide
  · decide
  · decide
  · decide
  · show (checkSequenceAnomalies (sortEvents
      [⟨"change_email", 100⟩, ⟨"export_data", 200⟩, ⟨"change_password", 300⟩])
      ((some [("change_email", [("export_data", (1 : ℚ))]),
              ("export_data", [("change_password", (1 : ℚ))])]).getD defaultTransitions)).score = 0
    have hsort : sortEvents [⟨"change_email", 100⟩, ⟨"export_data", 200⟩, ⟨"change_password", 300⟩] =
        [⟨"change_email", 100⟩, ⟨"export_data", 200⟩, ⟨"change_password", 300⟩] := by decide
    rw [hsort, Option.getD_some]
    simp only [checkSequenceAnomalies, consecPairs, transitionScore, transitionAnomalous,
      lookupRow, lookupProb, List.find?, String.reduceBEq, Option.map_some, List.map_cons,
      List.map_nil, List.any_cons, List.any_nil, List.foldl_cons, List.foldl_nil,
      hasRepeatedAction, hasCyclicPattern, hasRapidNavigation]
    norm_num

/-! ### Account velocity monitor (`app/predictors/account_velocity.py`)

The registration store is an abstract query `entityType → value → list of
timestamps` (the `Database.get_registrations` read).  When a query comes
back empty, `_get_registrations_by_entity` substitutes a *random*
baseline (`_simulate_baseline_registrations`); the realized random draw
is passed in as the `baseline` argument, with `AdmissibleBaseline`
characterizing the draws `random.randint(0, 86400)` can produce.
Python's `str.split` / `str.lower` are embedded over character lists. -/

/-- Splitting a character list on a separator character (`str.split`). -/
def splitOnChar (c : Char) : List Char → List (List Char)
  | [] => [[]]
  | x :: xs =>
    match splitOnChar c xs with
    | [] => [[]]
    | h :: t => if x == c then [] :: h :: t else (x :: h) :: t

/-- One group of the `^(\d{1,3}\.){3}\d{1,3}$` octet pattern. -/
def isIPv4Octet (s : String) : Bool :=
  decide (1 ≤ s.length) && decide (s.length ≤ 3) && s.data.all Char.isDigit

/-- `AccountVelocityMonitor._get_subnet`: the /24 subnet of an IPv4
address, `none` for non-IPv4 input. -/
def getSubnet (ip : String) : Option String :=
  let octets := (splitOnChar '.' ip.data).map String.mk
  if octets.length = 4 && octets.all isIPv4Octet then
    some (octets.getD 0 "" ++ "." ++ octets.getD 1 "" ++ "." ++ octets.getD 2 "" ++ ".0/24")
  else none

/-- The email-domain extraction in `check`: `email.split('@')[1].lower()`
when the email is non-empty and contains `@`. -/
def emailDomain (email : String) : Option String :=
  let parts := (splitOnChar '@' email.data).map String.mk
  if email ≠ "" ∧ 2 ≤ parts.length then
    some (String.mk ((parts.getD 1 "").data.map Char.toLower))
  else none

structure AVResult where
  risk_score : ℤ
  status : String
  deriving Repr, DecidableEq

def avTimeWindows : List (String × ℤ) := [("short", 300), ("medium", 3600), ("long", 86400)]

/-- The `thresholds` table, read as `get(entity, {}).get(window, 1000)`. -/
def avThreshold (entity window : String) : ℤ :=
  ((([("ip", [("short", (3 : ℤ)), ("medium", 10), ("long", 30)]),
      ("email_domain", [("short", 5), ("medium", 20), ("long", 50)]),
      ("subnet", [("short", 8), ("medium", 25), ("long", 80)])] :
    List (String × List (String × ℤ))).lookup entity).getD []).lookup window |>.getD 1000

/-- Registrations inside one sliding window. -/
def windowCount (regs : List ℤ) (now win : ℤ) : ℕ :=
  (regs.filter (fun ts => decide (now - ts ≤ win))).length

/-- Per-window risk of `_calculate_velocities`: 0 at or below the
threshold, 100 at 5x or more, linear 25-100 in between. -/
def windowRisk (count : ℕ) (threshold : ℤ) : ℚ :=
  if (count : ℤ) ≤ threshold then 0
  else if (5 : ℚ) ≤ (count : ℚ) / (threshold : ℚ) then 100
  else 25 + 75 * ((count : ℚ) / (threshold : ℚ) - 1) / 4

/-- `_calculate_velocities`: `int(max over the three windows)`. -/
def calcVelocities (entity : String) (regs : List ℤ) (now : ℤ) : ℤ :=
  ⌊(avTimeWindows.map (fun w => windowRisk (windowCount regs now w.2) (avThreshold entity w.1))).foldl max 0⌋

/-- Insertion of an integer into a sorted list. -/
def insertInt (x : ℤ) : List ℤ → List ℤ
  | [] => [x]
  | y :: ys => if x ≤ y then x :: y :: ys else y :: insertInt x ys

/-- Sorting integer timestamps (`sorted(...)` / `.sort()`). -/
def sortInts : List ℤ → List ℤ
  | [] => []
  | x :: xs => insertInt x (sortInts xs)

/-- The per-entity baseline size of
`_simulate_baseline_registrations`. -/
def baselineCount (entity : String) : ℕ :=
  (([("ip", 5), ("subnet", 15), ("email_domain", 25)] :
    List (String × ℕ)).lookup entity).getD 5

/-- `_simulate_baseline_registrations` for a realized draw of random
offsets: sorted timestamps `now - offset`. -/
def simulateBaseline (now : ℤ) (offsets : List ℤ) : List ℤ :=
  sortInts (offsets.map (fun o => now - o))

/-- A list of offsets that `random.randint(0, 86400)` can realize for an
entity type: the right count, each within the last 24 hours. -/
def AdmissibleBaseline (entity : String) (offsets : List ℤ) : Prop :=
  offsets.length = baselineCount entity ∧ ∀ o ∈ offsets, 0 ≤ o ∧ o ≤ 86400

instance (entity : String) (offsets : List ℤ) :
    Decidable (AdmissibleBaseline entity offsets) := by
  unfold AdmissibleBaseline; infer_instance

/-- `_get_registrations_by_entity`: the store's answer, or the simulated
baseline when the store has nothing. -/
def effectiveRegs (stored baseline : List ℤ) : List ℤ :=
  if stored.isEmpty then baseline else stored

/-- Three or more registrations within `w` seconds of each other
(consecutive triple scan over the sorted list). -/
def hasTripleWithin (w : ℤ) : List ℤ → Bool
  | a :: b :: c :: rest => decide (c - a ≤ w) || hasTripleWithin w (b :: c :: rest)
  | _ => false

/-- Five or more registrations within `w` seconds of each other. -/
def hasQuintWithin (w : ℤ) : List ℤ → Bool
  | a :: b :: c :: d :: e :: rest => decide (e - a ≤ w) || hasQuintWithin w (b :: c :: d :: e :: rest)
  | _ => false

/-- `_check_burst_pattern`: within the last 10 minutes, 3 registrations
inside 30 s or 5 inside 120 s. -/
def burstDetected (timestamps : List ℤ) (now : ℤ) : Bool :=
  let recent := timestamps.filter (fun ts => decide (now - ts ≤ 600))
  if recent.length < 3 then false
  else hasTripleWithin 30 (sortInts recent) || hasQuintWithin 120 (sortInts recent)

/-- `_check_cyclical_pattern`.  The source compares
`std_dev / avg < 0.25` with `std_dev = sqrt(variance)`; since both sides
are non-negative and `avg > 0`, this is equivalent to the square-root
free `variance < avg^2 / 16` used here. -/
def cyclicalDetected (timestamps : List ℤ) : Bool :=
  if timestamps.length < 5 then false
  else
    let intervals : List ℤ := (consecPairs (sortInts timestamps)).map (fun p => p.2 - p.1)
    if intervals.length < 4 then false
    else
      let avg : ℚ := ((intervals.map (fun i => (i : ℚ))).sum) / (intervals.length : ℚ)
      let variance : ℚ :=
        ((intervals.map (fun i => ((i : ℚ) - avg) ^ 2)).sum) / (intervals.length : ℚ)
      decide (0 < avg) && decide (variance < avg ^ 2 / 16)

/-- `_check_distributed_pattern`: both subnet and domain have more than
10 registrations and more than 5 within the hour before their latest
one. -/
def distributedDetected (subnetRegs domainRegs : List ℤ) : Bool :=
  if subnetRegs.isEmpty || domainRegs.isEmpty then false
  else if 10 < subnetRegs.length ∧ 10 < domainRegs.length then
    let ss := sortInts subnetRegs
    let ds := sortInts domainRegs
    decide (5 < ((ss.filter (fun ts => decide (ss.getLastD 0 - ts ≤ 3600))).length)) &&
      decide (5 < ((ds.filter (fun ts => decide (ds.getLastD 0 - ts ≤ 3600))).length))
  else false

/-- The most severe detected pattern by the fixed priority
burst 90 > distributed 80 > cyclical 75. -/
def patternVerdict (burst cyc dist : Bool) : Option (ℤ × String) :=
  if burst then some (90, "burst_pattern")
  else if dist then some (80, "distributed_pattern")
  else if cyc then some (75, "cyclical_pattern")
  else none

/-- The effective ip registrations `check` works with. -/
def avIpRegs (store : String → String → List ℤ) (baseline : String → List ℤ)
    (ip : String) : List ℤ :=
  effectiveRegs (store "ip" ip) (baseline "ip")

/-- The effective subnet registrations (empty when the ip is not IPv4). -/
def avSubnetRegs (store : String → String → List ℤ) (baseline : String → List ℤ)
    (ip : String) : List ℤ :=
  match getSubnet ip with
  | some s => effectiveRegs (store "subnet" s) (baseline "subnet")
  | none => []

/-- The effective email-domain registrations (empty without an email). -/
def avDomainRegs (store : String → String → List ℤ) (baseline : String → List ℤ)
    (email : String) : List ℤ :=
  match emailDomain email with
  | some d => effectiveRegs (store "email_domain" d) (baseline "email_domain")
  | none => []

/-- `AccountVelocityMonitor.check`: threshold scoring per present entity
(maximum of the positive entity risks), then the pattern detectors,
whose verdict overrides the threshold score when strictly higher. -/
def avCheck (store : String → String → List ℤ) (baseline : String → List ℤ)
    (ip email : String) (now : ℤ) : AVResult :=
  let ipRegs := avIpRegs store baseline ip
  let subnetRegs := avSubnetRegs store baseline ip
  let domainRegs := avDomainRegs store baseline email
  let ipRisk := calcVelocities "ip" ipRegs now
  let riskList :=
    (if 0 < ipRisk then [ipRisk] else []) ++
    (match getSubnet ip with
     | some _ =>
       if 0 < calcVelocities "subnet" subnetRegs now
       then [calcVelocities "subnet" subnetRegs now] else []
     | none => []) ++
    (match emailDomain email with
     | some _ =>
       if 0 < calcVelocities "email_domain" domainRegs now
       then [calcVelocities "email_domain" domainRegs now] else []
     | none => [])
  let risk := riskList.foldl max 0
  let status :=
    if 80 ≤ risk then "high_velocity"
    else if 50 ≤ risk then "elevated_velocity"
    else "normal_velocity"
  match patternVerdict (burstDetected ipRegs now) (cyclicalDetected subnetRegs)
      (distributedDetected subnetRegs domainRegs) with
  | some pr => if risk < pr.1 then ⟨pr.1, pr.2⟩ else ⟨risk, status⟩
  | none => ⟨risk, status⟩

/-- All three window counts sit strictly below the configured
thresholds for one entity type. -/
def BelowThresholds (entity : String) (regs : List ℤ) (now : ℤ) : Prop :=
  ∀ w ∈ avTimeWindows, (windowCount regs now w.2 : ℤ) < avThreshold entity w.1

instance (entity : String) (regs : List ℤ) (now : ℤ) :
    Decidable (BelowThresholds entity regs now) := by
  unfold BelowThresholds; infer_instance

theorem windowRisk_zero (c : ℕ) (t : ℤ) (h : (c : ℤ) ≤ t) : windowRisk c t = 0 := by
  rw [windowRisk, if_pos h]

theorem calcVelocities_zero (entity : String) (regs : List ℤ) (now : ℤ)
    (h : BelowThresholds entity regs now) : calcVelocities entity regs now = 0 := by
  have h1 := h ("short", 300) (by simp [avTimeWindows])
  have h2 := h ("medium", 3600) (by simp [avTimeWindows])
  have h3 := h ("long", 86400) (by simp [avTimeWindows])
  simp only at h1 h2 h3
  rw [calcVelocities]
  simp only [avTimeWindows, List.map_cons, List.map_nil, List.foldl_cons, List.foldl_nil]
  rw [windowRisk_zero _ _ (le_of_lt h1), windowRisk_zero _ _ (le_of_lt h2),
    windowRisk_zero _ _ (le_of_lt h3)]
  norm_num

/-- C2 (amended).  When, for each entity type present, every window
count is strictly below its configured threshold *and* none of the
burst/cyclical/distributed pattern detectors fires on the effective
registration lists, `check` returns risk 0 with status
`normal_velocity`. -/
theorem C2_below_thresholds_normal (store : String → String → List ℤ)
    (baseline : String → List ℤ) (ip email : String) (now : ℤ)
    (hip : BelowThresholds "ip" (avIpRegs store baseline ip) now)
    (hsub : BelowThresholds "subnet" (avSubnetRegs store baseline ip) now)
    (hdom : BelowThresholds "email_domain" (avDomainRegs store baseline email) now)
    (hburst : burstDetected (avIpRegs store baseline ip) now = false)
    (hcyc : cyclicalDetected (avSubnetRegs store baseline ip) = false)
    (hdist : distributedDetected (avSubnetRegs store baseline ip)
      (avDomainRegs store baseline email) = false) :
    avCheck store baseline ip email now = ⟨0, "normal_velocity"⟩ := by
  have h1 : calcVelocities "ip" (avIpRegs store baseline ip) now = 0 :=
    calcVelocities_zero _ _ _ hip
  have h2 : calcVelocities "subnet" (avSubnetRegs store baseline ip) now = 0 :=
    calcVelocities_zero _ _ _ hsub
  have h3 : calcVelocities "email_domain" (avDomainRegs store baseline email) now = 0 :=
    calcVelocities_zero _ _ _ hdom
  rcases hgs : getSubnet ip with _ | s <;> rcases hed : emailDomain email with _ | d <;>
    simp [avCheck, hgs, hed, h1, h2, h3, hburst, hcyc, hdist, patternVerdict]

/-- Witness for C2: a fresh IPv4 address and email with an empty store
and an empty realized baseline stay at risk 0 / `normal_velocity`. -/
theorem C2_below_thresholds_normal_witness :
    avCheck (fun _ _ => []) (fun _ => []) "203.0.113.9" "a@B.com" 100000 =
      ⟨0, "normal_velocity"⟩ :=
  C2_below_thresholds_normal (fun _ _ => []) (fun _ => []) "203.0.113.9" "a@B.com" 100000
    (by decide) (by decide) (by decide) (by decide) (by decide) (by decide)

/-- Counterexample to C2 as stated: three registrations 6-7 minutes old
and 10-20 seconds apart leave every window count strictly below its
threshold (short window count 0, others 3), yet the burst detector
(which looks back 10 minutes) fires and `check` returns risk 90 with
status `burst_pattern`, not 0 / `normal_velocity`. -/
theorem C2_counterexample :
    getSubnet "::1" = none ∧ emailDomain "" = none ∧
    BelowThresholds "ip" (avIpRegs
      (fun t v => if t = "ip" ∧ v = "::1" then [99600, 99610, 99620] else [])
      (fun _ => []) "::1") 100000 ∧
    avCheck (fun t v => if t = "ip" ∧ v = "::1" then [99600, 99610, 99620] else [])
      (fun _ => []) "::1" "" 100000 = ⟨90, "burst_pattern"⟩ := by
  have hregs : avIpRegs
      (fun t v => if t = "ip" ∧ v = "::1" then [99600, 99610, 99620] else [])
      (fun _ => []) "::1" = [99600, 99610, 99620] := by decide
  have hgs : getSubnet "::1" = none := by decide
  have hed : emailDomain "" = none := by decide
  have hcalc : calcVelocities "ip" ([99600, 99610, 99620] : List ℤ) 100000 = 0 :=
    calcVelocities_zero _ _ _ (by decide)
  have hburst : burstDetected ([99600, 99610, 99620] : List ℤ) 100000 = true := by decide
  refine ⟨hgs, hed, by decide, ?_⟩
  simp only [avCheck, hgs, hed, hregs, hcalc, hburst]
  simp [patternVerdict]

/-- C10.  When the store returns no registrations, `check` scores a
randomly generated baseline instead (5 timestamps for ip, 15 for subnet,
25 for email domain, spread over the past 24 h): two admissible random
draws, with identical inputs and identical (empty) store contents,
produce different window counts and different risk — `check` is not a
deterministic function of its inputs and the store state. -/
theorem C10_random_baseline_nondeterminism :
    baselineCount "ip" = 5 ∧ baselineCount "subnet" = 15 ∧
    baselineCount "email_domain" = 25 ∧
    AdmissibleBaseline "ip" [0, 10, 20, 40, 50] ∧
    AdmissibleBaseline "ip" [10000, 20000, 30000, 40000, 50000] ∧
    avCheck (fun _ _ => [])
        (fun t => if t = "ip" then simulateBaseline 100000 [0, 10, 20, 40, 50] else [])
        "abc" "" 100000 ≠
      avCheck (fun _ _ => [])
        (fun t => if t = "ip" then simulateBaseline 100000 [10000, 20000, 30000, 40000, 50000] else [])
        "abc" "" 100000 := by
  have hgs : getSubnet "abc" = none := by decide
  have hed : emailDomain "" = none := by decide
  have hregs1 : avIpRegs (fun _ _ => [])
      (fun t => if t = "ip" then simulateBaseline 100000 [0, 10, 20, 40, 50] else [])
      "abc" = [99950, 99960, 99980, 99990, 100000] := by decide
  have hregs2 : avIpRegs (fun _ _ => [])
      (fun t => if t = "ip" then simulateBaseline 100000 [10000, 20000, 30000, 40000, 50000] else [])
      "abc" = [50000, 60000, 70000, 80000, 90000] := by decide
  have hcount1 : windowCount ([99950, 99960, 99980, 99990, 100000] : List ℤ) 100000 300 = 5 := by
    decide
  have hw1 : windowRisk 5 (avThreshold "ip" "short") = 75/2 := by
    rw [show avThreshold "ip" "short" = 3 by decide, windowRisk,
      if_neg (by norm_num), if_neg (by norm_num)]
    norm_num
  have hcalc1 : calcVelocities "ip" ([99950, 99960, 99980, 99990, 100000] : List ℤ) 100000 = 37 := by
    rw [calcVelocities]
    simp only [avTimeWindows, List.map_cons, List.map_nil, List.foldl_cons, List.foldl_nil]
    rw [hcount1, hw1,
      windowRisk_zero _ _ (by decide : ((windowCount
        ([99950, 99960, 99980, 99990, 100000] : List ℤ) 100000 3600 : ℕ) : ℤ) ≤
        avThreshold "ip" "medium"),
      windowRisk_zero _ _ (by decide : ((windowCount
        ([99950, 99960, 99980, 99990, 100000] : List ℤ) 100000 86400 : ℕ) : ℤ) ≤
        avThreshold "ip" "long")]
    rw [show max (max (max (0 : ℚ) (75/2)) 0) 0 = 75/2 by
      rw [max_eq_right (by norm_num : (0 : ℚ) ≤ 75/2), max_eq_left (by norm_num),
        max_eq_left (by norm_num)]]
    rw [Int.floor_eq_iff]
    constructor <;> norm_num
  have hburst1 : burstDetected ([99950, 99960, 99980, 99990, 100000] : List ℤ) 100000 = true := by
    decide
  have hav1 : avCheck (fun _ _ => [])
      (fun t => if t = "ip" then simulateBaseline 100000 [0, 10, 20, 40, 50] else [])
      "abc" "" 100000 = ⟨90, "burst_pattern"⟩ := by
    simp only [avCheck, hgs, hed, hregs1, hcalc1, hburst1]
    simp [patternVerdict]
  have hcalc2 : calcVelocities "ip" ([50000, 60000, 70000, 80000, 90000] : List ℤ) 100000 = 0 :=
    calcVelocities_zero _ _ _ (by decide)
  have hburst2 : burstDetected ([50000, 60000, 70000, 80000, 90000] : List ℤ) 100000 = false := by
    decide
  have hav2 : avCheck (fun _ _ => [])
      (fun t => if t = "ip" then simulateBaseline 100000 [10000, 20000, 30000, 40000, 50000] else [])
      "abc" "" 100000 = ⟨0, "normal_velocity"⟩ := by
    simp only [avCheck, hgs, hed, hregs2, hcalc2, hburst2]
    simp [patternVerdict, cyclicalDetected, distributedDetected, avSubnetRegs, avDomainRegs,
      hgs, hed]
  refine ⟨by decide, by decide, by decide, by decide, by decide, ?_⟩
  rw [hav1, hav2]
  decide

/-! ### Detector error boundaries (`try/except` blocks of
`account_velocity.py`, `session_anomaly.py`; the geo, password and
device boundaries are defined with their detectors above). -/

/-- The `try/except` boundary of `AccountVelocityMonitor.check`: an
exception becomes risk 50 with status `error`. -/
def avCatch (body : Except String AVResult) : AVResult :=
  match body with
  | .ok r => r
  | .error _ => ⟨50, "error"⟩

/-- The `try/except` boundary of `SessionAnomalyDetector.detect`: an
exception becomes risk 50 with status `error` (and no `anomaly_score`
key). -/
def sessionCatch (body : Except String SessionResult) : SessionResult :=
  match body with
  | .ok r => r
  | .error _ => ⟨50, "error", none⟩

/-- C9 (amended).  Every detector catches exceptions at its own boundary
and returns a defaulted signal instead of propagating: the geo-velocity
detector (here end-to-end: whenever its body raises, e.g. on a malformed
stored login, `detect` returns risk 50 / status `error` without a store
write), the account-velocity and session detectors return risk 50 /
status `error`; the password detector returns risk 50 with
`attack_type` `detection_error` and no `status` key; the device
fingerprinter returns risk 60 with issue `analysis_error` and neither a
`status` nor an `is_known_device` key. -/
theorem C9_error_boundaries :
    (∀ (e : String) (distanceFn : GeoLocation → GeoLocation → ℚ)
      (lastLogin : Option StoredLogin) (cur : Option GeoLocation) (ip : String) (now : ℤ),
      geoDetectBody distanceFn lastLogin cur ip now = .error e →
      geoDetect distanceFn lastLogin cur ip now = (⟨50, "error"⟩, lastLogin)) ∧
    (∀ e : String, avCatch (.error e) = ⟨50, "error"⟩) ∧
    (∀ e : String, sessionCatch (.error e) = ⟨50, "error", none⟩) ∧
    (∀ e : String, pwCatch (.error e) = ⟨50, false, some "detection_error", none⟩) ∧
    (∀ (e : String) (store : DeviceStore),
      deviceCatch (.error e) store =
        (⟨60, ["analysis_error"], true, none, none, none, none⟩, store)) := by
  refine ⟨?_, fun _ => rfl, fun _ => rfl, fun _ => rfl, fun _ _ => rfl⟩
  intro e distanceFn lastLogin cur ip now h
  rw [geoDetect, h]

/-- Counterexample to C9 as stated: the device fingerprinter's boundary
returns risk 60 (not 50) and its error result carries no `status` key;
the password detector's error result also has no `status` key. -/
theorem C9_counterexample :
    (deviceCatch (.error "AttributeError") []).1.risk_score = 60 ∧
    (deviceCatch (.error "AttributeError") []).1.risk_score ≠ 50 ∧
    (pwCatch (.error "TypeError")).status = none :=
  ⟨rfl, by decide, rfl⟩

/-- Witness for C9: a stored login whose record is missing its location
(the body raises `KeyError`) makes the geo detector return the error
signal without overwriting the stored login. -/
theorem C9_error_boundaries_witness :
    geoDetect (fun _ _ => 0) (some ⟨"1.2.3.4", none, 1000⟩) (some ⟨0, 0⟩) "5.6.7.8" 5000 =
      (⟨50, "error"⟩, some ⟨"1.2.3.4", none, 1000⟩) :=
  C9_error_boundaries.1 "KeyError: latitude" (fun _ _ => 0)
    (some ⟨"1.2.3.4", none, 1000⟩) (some ⟨0, 0⟩) "5.6.7.8" 5000
    (by norm_num [geoDetectBody])

end FraudEngine
